import Mathlib

/-!
# SnapSell backend — verification of the normalization routine and request handler

Shallow embedding of `src/backend/main.py` (the SnapSell Vision API).
Python runtime values are embedded as `PyVal`; the functions `_to_bool`,
`_normalize_listing` and the body of `analyze_image` are translated into
executable Lean definitions, and the specification's claims are settled as
theorems about them.
-/

namespace SnapSell

/-- Embedding of the untyped Python values this code can receive.
Floats are embedded by the two observables the code uses (truthiness,
i.e. whether the value is numerically zero, and their `str` rendering);
any other Python object is likewise embedded by its truthiness and its
`str` rendering (`obj`). An absent dictionary key and a `None` value are
both `PyVal.none`, matching `dict.get`, the only access the code performs. -/
inductive PyVal where
  | none : PyVal
  | bool (b : Bool) : PyVal
  | int (n : Int) : PyVal
  | float (isZero : Bool) (render : String) : PyVal
  | str (s : String) : PyVal
  | obj (truthy : Bool) (render : String) : PyVal
deriving DecidableEq

/-- Characters removed by Python `str.strip()` (ASCII whitespace). -/
def isPySpace (c : Char) : Bool :=
  c = ' ' || c = '\t' || c = '\n' || c = '\r' || c = '\x0b' || c = '\x0c'

/-- Python `str.strip()` on a character list. -/
def pyStripList (l : List Char) : List Char :=
  ((l.dropWhile isPySpace).reverse.dropWhile isPySpace).reverse

/-- Python `str.strip()`. -/
def pyStrip (s : String) : String :=
  String.mk (pyStripList s.data)

/-- Python `str.lower()` (ASCII case folding). -/
def pyLower (s : String) : String :=
  String.mk (s.data.map Char.toLower)

/-- Decimal digit to character. -/
def digitChar (n : Nat) : Char :=
  Char.ofNat ('0'.toNat + n)

/-- Decimal rendering of a natural number (fuel-driven). -/
def natToChars : Nat → Nat → List Char
  | 0, _ => []
  | fuel + 1, n =>
      if n < 10 then [digitChar n]
      else natToChars fuel (n / 10) ++ [digitChar (n % 10)]

/-- Python `str` of a non-negative integer. -/
def natToString (n : Nat) : String :=
  String.mk (natToChars (n + 1) n)

/-- Python `str` of an integer. -/
def intToString : Int → String
  | Int.ofNat n => natToString n
  | Int.negSucc n => "-" ++ natToString (n + 1)

/-- Python `str()` of an embedded value. -/
def pyStr : PyVal → String
  | PyVal.none => "None"
  | PyVal.bool b => if b then "True" else "False"
  | PyVal.int n => intToString n
  | PyVal.float _ r => r
  | PyVal.str s => s
  | PyVal.obj _ r => r

/-- Python truthiness (`bool(value)`) of an embedded value. -/
def truthy : PyVal → Bool
  | PyVal.none => false
  | PyVal.bool b => b
  | PyVal.int n => n != 0
  | PyVal.float z _ => !z
  | PyVal.str s => s != ""
  | PyVal.obj t _ => t

/-- Python `a or b`: the first operand when truthy, otherwise the second. -/
def pyOr (a b : PyVal) : PyVal :=
  if truthy a then a else b

/-- The truthy string set of `_to_bool`. -/
def truthyStrings : List String := ["1", "true", "yes", "y"]

/-- The falsy string set of `_to_bool`. -/
def falsyStrings : List String := ["0", "false", "no", "n"]

/-- Python `x in {...}` membership over a list of strings. -/
def strIn (s : String) : List String → Bool
  | [] => false
  | t :: r => s == t || strIn s r

/-- `_to_bool` from `src/backend/main.py`: booleans pass through, numerics
via `bool(value)`, strings via trimmed lowercased membership in the truthy
set, then the falsy set, and every remaining case returns `False`. -/
def toBool : PyVal → Bool
  | PyVal.bool b => b
  | PyVal.int n => n != 0
  | PyVal.float z _ => !z
  | PyVal.str s =>
      let normalized := pyLower (pyStrip s)
      if strIn normalized truthyStrings then true
      else if strIn normalized falsyStrings then false
      else false
  | _ => false

/-- The listing record (`ListingData` pydantic model) of `src/backend/main.py`. -/
structure ListingData where
  title : String
  price : String
  description : String
  condition : String
  location : String
  brand : String := ""
  pickupAvailable : Bool := false
  shippingAvailable : Bool := false
  pickupNotes : String := ""
deriving DecidableEq

/-- Modelled from the spec: pydantic's `ListingData(**fallback)` constructor is
library code absent from `src/`; per the spec's §3 invariant ("value types are
coerced (e.g., non-string price coerced via string conversion ...)") a string
field accepts any value by Python string conversion. -/
def coerceToStr (v : PyVal) : String := pyStr v

/-- `_normalize_listing` from `src/backend/main.py`: each string field is
`payload.get(key) or ""` (then coerced to a string by the record constructor;
`price` is additionally wrapped in an explicit `str(...)` in the source), and
each boolean field is `_to_bool(payload.get(key))`. The payload is embedded as
a total function `String → PyVal`, `PyVal.none` standing for an absent key. -/
def normalizeListing (payload : String → PyVal) : ListingData :=
  { title := coerceToStr (pyOr (payload "title") (PyVal.str ""))
    price := pyStr (pyOr (payload "price") (PyVal.str ""))
    description := coerceToStr (pyOr (payload "description") (PyVal.str ""))
    condition := coerceToStr (pyOr (payload "condition") (PyVal.str ""))
    location := coerceToStr (pyOr (payload "location") (PyVal.str ""))
    brand := coerceToStr (pyOr (payload "brand") (PyVal.str ""))
    pickupAvailable := toBool (payload "pickupAvailable")
    shippingAvailable := toBool (payload "shippingAvailable")
    pickupNotes := coerceToStr (pyOr (payload "pickupNotes") (PyVal.str "")) }

/-- The nine keys `_normalize_listing` reads. -/
def knownKeys : List String :=
  ["title", "price", "description", "condition", "location", "brand",
   "pickupAvailable", "shippingAvailable", "pickupNotes"]

/-- Python `str.split(sep)` behaviour for the single character `\n`:
splits on every newline, keeping empty pieces. -/
def splitNl : List Char → List (List Char)
  | [] => [[]]
  | c :: t =>
      match splitNl t with
      | [] => [[]]
      | h :: r => if c = '\n' then [] :: h :: r else (c :: h) :: r

/-- Whether `pre` is a leading segment of `l` (Python `str.startswith`). -/
def leadsList : List Char → List Char → Bool
  | [], _ => true
  | _ :: _, [] => false
  | a :: pre, b :: l => a == b && leadsList pre l

/-- Whether `needle` occurs contiguously inside `hay` (Python `needle in hay`). -/
def occursIn (needle : List Char) : List Char → Bool
  | [] => leadsList needle []
  | c :: t => leadsList needle (c :: t) || occursIn needle t

/-- Python `x in s` on strings. -/
def strContains (hay needle : String) : Bool :=
  occursIn needle.data hay.data

/-- Python `str.find(c)`: index of the first occurrence. -/
def findCharIdx (c : Char) (l : List Char) : Option Nat :=
  List.findIdx? (fun d => d = c) l

/-- Python `str.rfind(c)`: index of the last occurrence. -/
def rfindCharIdx (c : Char) (l : List Char) : Option Nat :=
  match List.findIdx? (fun d => d = c) l.reverse with
  | some i => some (l.length - 1 - i)
  | Option.none => Option.none

/-- The markdown code-fence marker the handler tests for. -/
def fenceChars : List Char := "```".data

/-- The fence-dropping step of `analyze_image`: drop the first line, and the
last line too when its strip equals the bare fence marker, then rejoin. -/
def dropFence (jt : List Char) : List Char :=
  let lines := (splitNl jt).drop 1
  let lines :=
    match lines.getLast? with
    | some last => if pyStripList last = fenceChars then lines.dropLast else lines
    | Option.none => lines
  List.intercalate ['\n'] lines

/-- The JSON-recovery text pipeline of `analyze_image`
(`src/backend/main.py` lines 176–194): strip, de-fence when the text starts
with a fence marker, strip again, then slice from the first brace to the
last closing brace when both exist in that order. -/
def extractList (response : List Char) : List Char :=
  let jt := pyStripList response
  let jt := if leadsList fenceChars jt then dropFence jt else jt
  let jt := pyStripList jt
  match findCharIdx '\x7b' jt, rfindCharIdx '\x7d' jt with
  | some s, some e => if s < e then (jt.drop s).take (e + 1 - s) else jt
  | _, _ => jt

/-- JSON insignificant whitespace. -/
def isJsonWs (c : Char) : Bool :=
  c = ' ' || c = '\t' || c = '\n' || c = '\r'

/-- Skip JSON whitespace. -/
def skipWs (l : List Char) : List Char :=
  l.dropWhile isJsonWs

/-- Scanner for the body of a JSON string literal (supports the single-character
escapes; `\u` escapes are outside the modelled fragment). -/
def scanJsonString : List Char → List Char → Option (String × List Char)
  | [], _ => Option.none
  | '"' :: rest, acc => some (String.mk acc.reverse, rest)
  | '\\' :: c :: rest, acc =>
      match c with
      | '"' => scanJsonString rest ('"' :: acc)
      | '\\' => scanJsonString rest ('\\' :: acc)
      | '/' => scanJsonString rest ('/' :: acc)
      | 'n' => scanJsonString rest ('\n' :: acc)
      | 't' => scanJsonString rest ('\t' :: acc)
      | 'r' => scanJsonString rest ('\r' :: acc)
      | _ => Option.none
  | c :: rest, acc => scanJsonString rest (c :: acc)

/-- Parse a JSON string literal, returning its value and the rest. -/
def parseJsonString : List Char → Option (String × List Char)
  | '"' :: rest => scanJsonString rest []
  | _ => Option.none

/-- Digits of a decimal literal folded into a natural number. -/
def digitsToNat (ds : List Char) : Nat :=
  ds.foldl (fun acc c => acc * 10 + (c.toNat - '0'.toNat)) 0

/-- Parse a JSON integer literal (fractions and exponents are outside the
modelled fragment and fail). -/
def parseJsonNumber : List Char → Option (PyVal × List Char)
  | '-' :: rest =>
      match rest.takeWhile Char.isDigit, rest.dropWhile Char.isDigit with
      | [], _ => Option.none
      | ds, rest2 =>
          match rest2 with
          | '.' :: _ => Option.none
          | 'e' :: _ => Option.none
          | 'E' :: _ => Option.none
          | _ => some (PyVal.int (-(digitsToNat ds : Int)), rest2)
  | l =>
      match l.takeWhile Char.isDigit, l.dropWhile Char.isDigit with
      | [], _ => Option.none
      | ds, rest2 =>
          match rest2 with
          | '.' :: _ => Option.none
          | 'e' :: _ => Option.none
          | 'E' :: _ => Option.none
          | _ => some (PyVal.int (digitsToNat ds), rest2)

/-- Parse a scalar JSON value (string, integer, `true`, `false`, `null`);
nested objects and arrays are outside the modelled fragment and fail. -/
def parseJsonValue (l : List Char) : Option (PyVal × List Char) :=
  match l with
  | '"' :: _ => (parseJsonString l).map (fun p => (PyVal.str p.1, p.2))
  | 't' :: 'r' :: 'u' :: 'e' :: r => some (PyVal.bool true, r)
  | 'f' :: 'a' :: 'l' :: 's' :: 'e' :: r => some (PyVal.bool false, r)
  | 'n' :: 'u' :: 'l' :: 'l' :: r => some (PyVal.none, r)
  | _ => parseJsonNumber l

/-- Parse the members of a JSON object, positioned just after `\x7b` or a
comma; returns the pairs and the rest after the closing `\x7d`. -/
def parseJsonMembers : Nat → List Char → Option (List (String × PyVal) × List Char)
  | 0, _ => Option.none
  | fuel + 1, l =>
      match parseJsonString (skipWs l) with
      | Option.none => Option.none
      | some (k, r1) =>
          match skipWs r1 with
          | ':' :: r2 =>
              match parseJsonValue (skipWs r2) with
              | Option.none => Option.none
              | some (v, r3) =>
                  match skipWs r3 with
                  | ',' :: r4 =>
                      match parseJsonMembers fuel r4 with
                      | some (ps, r5) => some ((k, v) :: ps, r5)
                      | Option.none => Option.none
                  | '\x7d' :: r4 => some ([(k, v)], r4)
                  | _ => Option.none
          | _ => Option.none

/-- Model of `json.loads` restricted to the fragment the claims exercise:
a single object of string keys and scalar values, with nothing but
whitespace around it. Real `json.loads` also accepts non-object documents
(whereupon the handler would crash in `_normalize_listing`) and nested
values; no claim depends on those inputs, and malformed text — in
particular the empty string — fails here exactly as it raises
`JSONDecodeError` there. -/
def jsonLoadsList (l : List Char) : Option (List (String × PyVal)) :=
  match skipWs l with
  | '\x7b' :: r =>
      match skipWs r with
      | '\x7d' :: r2 => if (skipWs r2).isEmpty then some [] else Option.none
      | _ =>
          match parseJsonMembers (r.length + 1) r with
          | some (ps, rest) => if (skipWs rest).isEmpty then some ps else Option.none
          | Option.none => Option.none
  | _ => Option.none

/-- Lookup in a parsed JSON object as a Python `dict.get`: the last binding of
a duplicated key wins, and an absent key yields `PyVal.none`. -/
def dictGet (pairs : List (String × PyVal)) (k : String) : PyVal :=
  match pairs.reverse.lookup k with
  | some v => v
  | Option.none => PyVal.none

/-- The upload-validation test of `analyze_image`:
`not image.content_type or not image.content_type.startswith("image/")`
fails the request; a missing content type is `Option.none`, and the empty
string is equally falsy. -/
def contentTypeOk : Option String → Bool
  | Option.none => false
  | some ct => ct ≠ "" && leadsList ("image/".data) ct.data

/-- The `except` branch of the provider call: the error text is sub-classified
by case-insensitive substring tests, exactly as `analyze_image` does. -/
def classifyProviderDetail (provider msg : String) : String :=
  let low := pyLower msg
  if strContains low "quota" || strContains low "insufficient_quota" then
    "API quota exceeded. Please check your " ++ provider ++
      " account billing and usage limits. Error: " ++ msg
  else if strContains low "api_key" || strContains low "authentication" then
    "API authentication failed. Please check your " ++ provider ++
      " API key in .env. Error: " ++ msg
  else
    "Vision model error: " ++ msg

/-- What the handler sends back: a listing on success, or an
`HTTPException(status_code, detail)`. -/
inductive AnalyzeOutcome where
  | success (listing : ListingData) : AnalyzeOutcome
  | failure (status : Nat) (detail : String) : AnalyzeOutcome
deriving DecidableEq

/-- Observable per-request effects on the temporary file and the collaborator:
whether the temp file was created, whether `llm_api.query_llm` was invoked,
how many times the file was unlinked, and whether it still exists at the end. -/
structure RequestTrace where
  fileCreated : Bool
  queried : Bool
  deletions : Nat
  fileRemains : Bool
deriving DecidableEq

/-- The `finally` block of `analyze_image`: unlink the temporary file when it
still exists (an already-absent file is tolerated silently). Returns whether
the file remains and how many unlinks happened. -/
def cleanupTemp (present : Bool) : Bool × Nat :=
  if present then (false, 1) else (present, 0)

/-- The outcome of the black-box Vision Query Collaborator
(`llm_api.query_llm`, external to `src/`): either a text response or a
raised exception carrying its message. -/
def CollabResult := Except String String

/-- The body of `analyze_image` from `src/backend/main.py`, as one request:
validate the content type (400), stage the temporary file, call the
collaborator, run the `finally` cleanup on every exit path, then classify a
provider failure (502), an empty response (502), a JSON-recovery parse
failure (500 with the first 500 characters of the raw response), or a
normalized success. Analytics emission never affects the outcome and is not
modelled. -/
def runAnalyze (contentType : Option String) (provider : String)
    (collab : CollabResult) : AnalyzeOutcome × RequestTrace :=
  if contentTypeOk contentType then
    match collab with
    | Except.error msg =>
        let c := cleanupTemp true
        (AnalyzeOutcome.failure 502 (classifyProviderDetail provider msg),
         ⟨true, true, c.2, c.1⟩)
    | Except.ok response =>
        let c := cleanupTemp true
        if response = "" then
          (AnalyzeOutcome.failure 502 "Vision model failed to return a response.",
           ⟨true, true, c.2, c.1⟩)
        else
          match jsonLoadsList (extractList response.data) with
          | Option.none =>
              (AnalyzeOutcome.failure 500
                ("Failed to parse model output as JSON. Raw response: " ++
                  String.mk (response.data.take 500)),
               ⟨true, true, c.2, c.1⟩)
          | some pairs =>
              (AnalyzeOutcome.success (normalizeListing (dictGet pairs)),
               ⟨true, true, c.2, c.1⟩)
  else
    (AnalyzeOutcome.failure 400 "Please upload an image file.",
     ⟨false, false, 0, false⟩)

/-- The empty payload: every key absent. -/
def emptyPayload : String → PyVal := fun _ => PyVal.none

/-- A payload whose only binding is a key `_normalize_listing` never reads. -/
def junkPayload : String → PyVal :=
  fun k => if k = "junk" then PyVal.str "ignored" else PyVal.none

/-- A payload carrying `price = 0` (a non-null, non-empty-string value). -/
def priceZeroPayload : String → PyVal :=
  fun k => if k = "price" then PyVal.int 0 else PyVal.none

/-- A payload carrying `price = 42`. -/
def priceFortyTwoPayload : String → PyVal :=
  fun k => if k = "price" then PyVal.int 42 else PyVal.none

/-- The spec's fenced-response example (§8): a markdown-fenced JSON object. -/
def lampRaw : String :=
  "```json\n\x7b\"title\":\"Lamp\",\"price\":\"20\",\"description\":\"d\",\"condition\":\"Used - Good\",\"location\":\"\"\x7d\n```"

/-- The bare JSON object inside `lampRaw`. -/
def lampJson : String :=
  "\x7b\"title\":\"Lamp\",\"price\":\"20\",\"description\":\"d\",\"condition\":\"Used - Good\",\"location\":\"\"\x7d"

/-- The spec's prose-embedded example (§8): a JSON object with text around it. -/
def chairRaw : String :=
  "Here you go: \x7b\"title\":\"Chair\",\"price\":\"\",\"description\":\"x\",\"condition\":\"New\",\"location\":\"NYC\"\x7d Thanks!"

/-- The bare JSON object inside `chairRaw`. -/
def chairJson : String :=
  "\x7b\"title\":\"Chair\",\"price\":\"\",\"description\":\"x\",\"condition\":\"New\",\"location\":\"NYC\"\x7d"

theorem strIn_falsy_not_truthy (m : String) (h : strIn m falsyStrings = true) :
    strIn m truthyStrings = false := by
  simp only [strIn, falsyStrings, Bool.or_eq_true, beq_iff_eq] at h
  rcases h with h | h | h | h | h <;> first | (subst h; decide) | exact absurd h (by decide)

theorem toBool_str (s : String) :
    toBool (PyVal.str s) = strIn (pyLower (pyStrip s)) truthyStrings := by
  by_cases h : strIn (pyLower (pyStrip s)) truthyStrings = true
  · simp [toBool, h]
  · have h2 : strIn (pyLower (pyStrip s)) truthyStrings = false :=
      Bool.not_eq_true _ ▸ Bool.of_not_eq_true h
    simp [toBool, h2]

/-- C1: `_normalize_listing` is total over the untyped payload embedding — it
is a Lean function into `ListingData`, so it returns a record for every
payload, including one with every key absent, null, or of mismatched
type — and whenever a field's source value is absent or null the field
equals its declared default ("" for the string fields, `False` for the
boolean fields). -/
theorem normalize_total_absent_defaults (p : String → PyVal) :
    (p "title" = PyVal.none → (normalizeListing p).title = "") ∧
    (p "price" = PyVal.none → (normalizeListing p).price = "") ∧
    (p "description" = PyVal.none → (normalizeListing p).description = "") ∧
    (p "condition" = PyVal.none → (normalizeListing p).condition = "") ∧
    (p "location" = PyVal.none → (normalizeListing p).location = "") ∧
    (p "brand" = PyVal.none → (normalizeListing p).brand = "") ∧
    (p "pickupAvailable" = PyVal.none → (normalizeListing p).pickupAvailable = false) ∧
    (p "shippingAvailable" = PyVal.none → (normalizeListing p).shippingAvailable = false) ∧
    (p "pickupNotes" = PyVal.none → (normalizeListing p).pickupNotes = "") := by
  refine ⟨?_, ?_, ?_, ?_, ?_, ?_, ?_, ?_, ?_⟩ <;>
    (intro h; simp [normalizeListing, coerceToStr, pyOr, truthy, pyStr, toBool, h])

theorem normalize_total_absent_defaults_witness :
    (normalizeListing emptyPayload).title = "" ∧
    (normalizeListing emptyPayload).pickupAvailable = false :=
  ⟨(normalize_total_absent_defaults emptyPayload).1 rfl,
   (normalize_total_absent_defaults emptyPayload).2.2.2.2.2.2.1 rfl⟩

/-- C2: `_to_bool` is total and case-complete: booleans pass through; an
embedded numeric maps to `False` exactly when it is zero; a string is
trimmed and lowercased and maps to `True` exactly when in the truthy set,
to `False` when in the falsy set, and to `False` otherwise (e.g. "maybe");
`None` and any other object type map to `False`. -/
theorem toBool_spec :
    (∀ b, toBool (PyVal.bool b) = b) ∧
    (∀ n : Int, toBool (PyVal.int n) = false ↔ n = 0) ∧
    (∀ z r, toBool (PyVal.float z r) = false ↔ z = true) ∧
    (∀ s, strIn (pyLower (pyStrip s)) truthyStrings = true →
      toBool (PyVal.str s) = true) ∧
    (∀ s, strIn (pyLower (pyStrip s)) falsyStrings = true →
      toBool (PyVal.str s) = false) ∧
    (∀ s, strIn (pyLower (pyStrip s)) truthyStrings = false →
      toBool (PyVal.str s) = false) ∧
    toBool (PyVal.str "maybe") = false ∧
    toBool PyVal.none = false ∧
    (∀ t r, toBool (PyVal.obj t r) = false) := by
  refine ⟨fun b => rfl, fun n => ?_, fun z r => ?_, fun s h => ?_, fun s h => ?_,
    fun s h => ?_, by decide, rfl, fun t r => rfl⟩
  · simp [toBool]
  · simp [toBool]
  · rw [toBool_str, h]
  · rw [toBool_str, strIn_falsy_not_truthy _ h]
  · rw [toBool_str, h]

theorem toBool_spec_witness :
    toBool (PyVal.str " YES ") = true ∧
    toBool (PyVal.str "0") = false ∧
    toBool (PyVal.str "maybe") = false ∧
    toBool (PyVal.int 0) = false :=
  ⟨toBool_spec.2.2.2.1 " YES " (by decide),
   toBool_spec.2.2.2.2.1 "0" (by decide),
   toBool_spec.2.2.2.2.2.2.1,
   (toBool_spec.2.1 0).mpr rfl⟩

/-- C4: normalizing the empty mapping yields the all-defaults record:
empty strings for the seven string fields and `False` for the two booleans. -/
theorem normalize_empty_all_defaults :
    normalizeListing emptyPayload =
      { title := "", price := "", description := "", condition := "",
        location := "", brand := "", pickupAvailable := false,
        shippingAvailable := false, pickupNotes := "" } := by
  rfl

/-- C3 counterexample: the claim as stated — every non-null, non-empty price
value is rendered by its string representation — fails at `price = 0`, a
non-null value that is not the empty string: the code's `or ""` fallback
treats the falsy `0` as missing and produces `""`, not `"0"`. -/
theorem normalize_price_claim_counterexample :
    ¬ (∀ p : String → PyVal, p "price" ≠ PyVal.none → p "price" ≠ PyVal.str "" →
        (normalizeListing p).price = pyStr (p "price")) := by
  intro h
  have h0 := h priceZeroPayload (by decide) (by decide)
  exact absurd h0 (by decide)

/-- C3 (amended): for every input mapping whose price value is Python-truthy
(non-null, non-empty, and not a numeric zero or `False`), the normalized
price is that value's string representation. -/
theorem normalize_price_truthy (p : String → PyVal)
    (h : truthy (p "price") = true) :
    (normalizeListing p).price = pyStr (p "price") := by
  simp [normalizeListing, pyOr, h]

theorem normalize_price_truthy_witness :
    truthy (priceFortyTwoPayload "price") = true ∧
    (normalizeListing priceFortyTwoPayload).price = "42" :=
  ⟨by decide,
   (normalize_price_truthy priceFortyTwoPayload (by decide)).trans (by decide)⟩

/-- C10: the normalized record depends only on the nine keys
`_normalize_listing` reads — two payloads that agree on those keys
normalize identically, so extra keys never influence the result. -/
theorem normalize_known_keys_only (p q : String → PyVal)
    (h : ∀ k ∈ knownKeys, p k = q k) :
    normalizeListing p = normalizeListing q := by
  have h1 := h "title" (by simp [knownKeys])
  have h2 := h "price" (by simp [knownKeys])
  have h3 := h "description" (by simp [knownKeys])
  have h4 := h "condition" (by simp [knownKeys])
  have h5 := h "location" (by simp [knownKeys])
  have h6 := h "brand" (by simp [knownKeys])
  have h7 := h "pickupAvailable" (by simp [knownKeys])
  have h8 := h "shippingAvailable" (by simp [knownKeys])
  have h9 := h "pickupNotes" (by simp [knownKeys])
  simp [normalizeListing, h1, h2, h3, h4, h5, h6, h7, h8, h9]

theorem normalize_known_keys_only_witness :
    normalizeListing junkPayload = normalizeListing emptyPayload :=
  normalize_known_keys_only junkPayload emptyPayload (by
    intro k hk
    simp only [knownKeys, List.mem_cons, List.not_mem_nil, or_false] at hk
    rcases hk with rfl | rfl | rfl | rfl | rfl | rfl | rfl | rfl | rfl <;> decide)

/-- C5: the JSON-recovery pipeline (strip, fence-dropping, brace-slicing)
recovers the bare object from both of the spec's examples, and the handler
turns each into a successful `ListingData` with the stated field values:
the fenced Lamp response and the prose-embedded Chair response. -/
theorem json_recovery_examples :
    String.mk (extractList lampRaw.data) = lampJson ∧
    (runAnalyze (some "image/jpeg") "azure" (Except.ok lampRaw)).1 =
      AnalyzeOutcome.success
        { title := "Lamp", price := "20", description := "d",
          condition := "Used - Good", location := "", brand := "",
          pickupAvailable := false, shippingAvailable := false,
          pickupNotes := "" } ∧
    String.mk (extractList chairRaw.data) = chairJson ∧
    (runAnalyze (some "image/jpeg") "azure" (Except.ok chairRaw)).1 =
      AnalyzeOutcome.success
        { title := "Chair", price := "", description := "x",
          condition := "New", location := "NYC", brand := "",
          pickupAvailable := false, shippingAvailable := false,
          pickupNotes := "" } := by
  refine ⟨by decide, by decide, by decide, by decide⟩

/-- C6: every request that passes validation (and therefore stages the
temporary file) ends with the file gone and exactly one deletion, on every
exit path: provider failure, empty response, parse failure, and success. -/
theorem temp_file_request_scoped (ct : Option String) (prov : String)
    (collab : CollabResult) (h : contentTypeOk ct = true) :
    (runAnalyze ct prov collab).2.fileCreated = true ∧
    (runAnalyze ct prov collab).2.deletions = 1 ∧
    (runAnalyze ct prov collab).2.fileRemains = false := by
  unfold runAnalyze
  cases collab with
  | error msg => simp [h, cleanupTemp]
  | ok response =>
      by_cases hr : response = ""
      · simp [h, hr, cleanupTemp]
      · cases hj : jsonLoadsList (extractList response.data) <;>
          simp [h, hr, hj, cleanupTemp]

theorem temp_file_request_scoped_witness :
    contentTypeOk (some "image/png") = true ∧
    (runAnalyze (some "image/png") "azure" (Except.ok "hello")).2.deletions = 1 ∧
    (runAnalyze (some "image/png") "azure" (Except.ok "hello")).2.fileRemains = false :=
  ⟨by decide,
   (temp_file_request_scoped (some "image/png") "azure" (Except.ok "hello") (by decide)).2.1,
   (temp_file_request_scoped (some "image/png") "azure" (Except.ok "hello") (by decide)).2.2⟩

/-- C7: a missing content type, or one that does not begin with "image/",
yields the 400 failure with detail "Please upload an image file.", and the
Vision Query Collaborator is never invoked. -/
theorem non_image_rejected (ct : Option String) (prov : String)
    (collab : CollabResult) (h : contentTypeOk ct = false) :
    (runAnalyze ct prov collab).1 =
      AnalyzeOutcome.failure 400 "Please upload an image file." ∧
    (runAnalyze ct prov collab).2.queried = false := by
  unfold runAnalyze
  simp [h]

theorem leadsList_append (n : List Char) :
    ∀ h b, leadsList n h = true → leadsList n (h ++ b) = true := by
  induction n with
  | nil => intro h b _; rfl
  | cons a n ih =>
      intro h b hl
      cases h with
      | nil => simp [leadsList] at hl
      | cons c h =>
          simp only [leadsList, Bool.and_eq_true, List.cons_append] at hl ⊢
          exact ⟨hl.1, ih h b hl.2⟩

theorem occursIn_nil_needle (l : List Char) : occursIn [] l = true := by
  cases l <;> simp [occursIn, leadsList]

theorem occursIn_append_left (n : List Char) :
    ∀ a b, occursIn n b = true → occursIn n (a ++ b) = true := by
  intro a
  induction a with
  | nil => intro b h; simpa using h
  | cons c a ih =>
      intro b h
      simp only [List.cons_append, occursIn, Bool.or_eq_true]
      exact Or.inr (ih b h)

theorem occursIn_append_right (n : List Char) :
    ∀ a b, occursIn n a = true → occursIn n (a ++ b) = true := by
  intro a
  induction a with
  | nil =>
      intro b h
      cases n with
      | nil => exact occursIn_nil_needle b
      | cons x m => simp [occursIn, leadsList] at h
  | cons c a ih =>
      intro b h
      simp only [occursIn, Bool.or_eq_true] at h
      simp only [List.cons_append, occursIn, Bool.or_eq_true]
      rcases h with h | h
      · exact Or.inl (leadsList_append n (c :: a) b h)
      · exact Or.inr (ih b h)

theorem strContains_of_middle (x y z needle : String)
    (h : occursIn needle.data y.data = true) :
    strContains (x ++ y ++ z) needle = true := by
  unfold strContains
  rw [String.data_append, String.data_append]
  exact occursIn_append_right _ _ _ (occursIn_append_left _ _ _ h)

/-- C8: whenever the collaborator raises, the handler answers 502 with the
classified detail; a quota-flavoured error text (case-insensitive "quota" or
"insufficient_quota") yields a message mentioning billing and usage limits;
otherwise an "api_key"/"authentication" text yields a message mentioning the
API key; otherwise the detail is the generic vision model error carrying the
raw error text. -/
theorem provider_error_classified (ct : Option String) (prov msg : String)
    (h : contentTypeOk ct = true) :
    (runAnalyze ct prov (Except.error msg)).1 =
      AnalyzeOutcome.failure 502 (classifyProviderDetail prov msg) ∧
    ((strContains (pyLower msg) "quota" ||
        strContains (pyLower msg) "insufficient_quota") = true →
      strContains (classifyProviderDetail prov msg) "billing and usage limits" = true) ∧
    ((strContains (pyLower msg) "quota" ||
        strContains (pyLower msg) "insufficient_quota") = false →
      (strContains (pyLower msg) "api_key" ||
        strContains (pyLower msg) "authentication") = true →
      strContains (classifyProviderDetail prov msg) "API key" = true) ∧
    ((strContains (pyLower msg) "quota" ||
        strContains (pyLower msg) "insufficient_quota") = false →
      (strContains (pyLower msg) "api_key" ||
        strContains (pyLower msg) "authentication") = false →
      classifyProviderDetail prov msg = "Vision model error: " ++ msg) := by
  refine ⟨?_, ?_, ?_, ?_⟩
  · unfold runAnalyze
    simp [h]
  · intro hq
    simp only [classifyProviderDetail, hq, if_true]
    exact strContains_of_middle _ _ _ _ (by decide)
  · intro hq hk
    simp only [classifyProviderDetail, hq, hk, Bool.false_eq_true, if_false, if_true]
    exact strContains_of_middle _ _ _ _ (by decide)
  · intro hq hk
    simp [classifyProviderDetail, hq, hk]

theorem provider_error_classified_witness :
    strContains
      (classifyProviderDetail "azure" "Error code 429: insufficient_quota")
      "billing and usage limits" = true ∧
    strContains
      (classifyProviderDetail "azure" "authentication failure") "API key" = true ∧
    classifyProviderDetail "azure" "socket closed" =
      "Vision model error: " ++ "socket closed" ∧
    (runAnalyze (some "image/png") "azure" (Except.error "socket closed")).1 =
      AnalyzeOutcome.failure 502 (classifyProviderDetail "azure" "socket closed") :=
  ⟨(provider_error_classified (some "image/png") "azure"
      "Error code 429: insufficient_quota" (by decide)).2.1 (by decide),
   (provider_error_classified (some "image/png") "azure"
      "authentication failure" (by decide)).2.2.1 (by decide) (by decide),
   (provider_error_classified (some "image/png") "azure"
      "socket closed" (by decide)).2.2.2 (by decide) (by decide),
   (provider_error_classified (some "image/png") "azure"
      "socket closed" (by decide)).1⟩

theorem pyStripList_all_space (l : List Char)
    (h : ∀ c ∈ l, isPySpace c = true) : pyStripList l = [] := by
  unfold pyStripList
  rw [List.dropWhile_eq_nil_iff.mpr h]
  rfl

/-- C9: a non-empty, all-whitespace collaborator response is truthy, so the
handler skips the 502 empty-response branch; the recovery pipeline strips it
to the empty text, JSON parsing fails, and the request ends with the 500
parse error whose message carries the first 500 characters of the raw
response. -/
theorem whitespace_response_parse_500 (ct : Option String) (prov s : String)
    (hct : contentTypeOk ct = true) (hne : s ≠ "")
    (hws : ∀ c ∈ s.data, isPySpace c = true) :
    (runAnalyze ct prov (Except.ok s)).1 =
      AnalyzeOutcome.failure 500
        ("Failed to parse model output as JSON. Raw response: " ++
          String.mk (s.data.take 500)) ∧
    (runAnalyze ct prov (Except.ok s)).1 ≠
      AnalyzeOutcome.failure 502 "Vision model failed to return a response." := by
  have h0 : pyStripList s.data = [] := pyStripList_all_space s.data hws
  have hj : jsonLoadsList (extractList s.data) = Option.none := by
    unfold extractList
    rw [h0]
    rfl
  constructor
  · unfold runAnalyze
    simp [hct, hne, hj, cleanupTemp]
  · unfold runAnalyze
    simp [hct, hne, hj, cleanupTemp]

theorem whitespace_response_parse_500_witness :
    (runAnalyze (some "image/png") "azure" (Except.ok " \n")).1 =
      AnalyzeOutcome.failure 500
        ("Failed to parse model output as JSON. Raw response: " ++
          String.mk (" \n".data.take 500)) ∧
    (runAnalyze (some "image/png") "azure" (Except.ok " \n")).1 ≠
      AnalyzeOutcome.failure 502 "Vision model failed to return a response." :=
  whitespace_response_parse_500 (some "image/png") "azure" " \n"
    (by decide) (by decide) (by decide)

theorem non_image_rejected_witness :
    contentTypeOk (some "text/plain") = false ∧
    (runAnalyze (some "text/plain") "azure" (Except.ok "ignored")).1 =
      AnalyzeOutcome.failure 400 "Please upload an image file." ∧
    (runAnalyze (some "text/plain") "azure" (Except.ok "ignored")).2.queried = false :=
  ⟨by decide,
   (non_image_rejected (some "text/plain") "azure" (Except.ok "ignored") (by decide)).1,
   (non_image_rejected (some "text/plain") "azure" (Except.ok "ignored") (by decide)).2⟩

end SnapSell
